import Mathlib

/-!
Shallow embedding of the registration-form workflow of the arbicho-reg
repository. Three near-identical React components are embedded:

* `src/components/register.tsx`  (suffix `R` below)
* `src/unnamed/part_000`         (suffix `P0` below)
* `src/unnamed/part_001`         (suffix `P1` below)

Each component consists of a zod validation schema, mount-time GET fetches
for reference lists, and a submit handler building a JSON payload and
POSTing it. Validation rules, payload construction, URLs, toast messages
and state resets are embedded as executable Lean functions; network
responses are modelled as explicit values fed to the handlers.
-/

/-- The check performed by zod `z.string().min(n)`: the string has at least
`n` characters (JS `.length`; identical to `String.length` on the ASCII
strings handled here). Used by every field rule of the three schemas. -/
def zMin (n : Nat) (s : String) : Bool :=
  decide (n ≤ s.length)

/-- Character class `[A-Za-z0-9_'+\-.]` of the local part of the zod email
regex (codepoint 39 is the apostrophe). -/
def isEmailLocalChar (c : Char) : Bool :=
  c.isAlphanum || c == '_' || c.toNat == 39 || c == '+' || c == '-' || c == '.'

/-- Character class `[A-Za-z0-9_+-]` required of the last character of the
local part of the zod email regex. -/
def isEmailLocalEnd (c : Char) : Bool :=
  c.isAlphanum || c == '_' || c == '+' || c == '-'

/-- Character class `[A-Za-z0-9-]` allowed after the leading character of a
domain label in the zod email regex. -/
def isEmailDomChar (c : Char) : Bool :=
  c.isAlphanum || c == '-'

/-- Whether the character list contains two consecutive dots, the
`(?!.*\.\.)` negative lookahead of the zod email regex. -/
def hasDoubleDot : List Char → Bool
  | '.' :: '.' :: _ => true
  | _ :: rest => hasDoubleDot rest
  | [] => false

/-- Splits a character list at every dot; adjacent dots or boundary dots
yield empty components, exactly as a regex alternation over labels would
reject them. -/
def splitOnDot : List Char → List (List Char)
  | [] => [[]]
  | c :: rest =>
      let r := splitOnDot rest
      if c == '.' then [] :: r
      else
        match r with
        | h :: t => (c :: h) :: t
        | [] => [[c]]

/-- Splits at the unique `@`; `none` when the list has no `@` or more than
one (the regex character classes exclude `@` on both sides). -/
def splitAtAt : List Char → Option (List Char × List Char)
  | [] => none
  | c :: rest =>
      if c == '@' then
        if rest.contains '@' then none else some ([], rest)
      else
        match splitAtAt rest with
        | some (l, d) => some (c :: l, d)
        | none => none

/-- Local part of the zod email regex: `([A-Za-z0-9_'+\-.]*)[A-Za-z0-9_+-]`,
a possibly empty run of local characters ending in a non-dot character. -/
def validLocal (cs : List Char) : Bool :=
  match cs.reverse with
  | [] => false
  | e :: _ => isEmailLocalEnd e && cs.all isEmailLocalChar

/-- One domain label `[A-Za-z0-9][A-Za-z0-9-]*` of the zod email regex. -/
def validDomainLabel (l : List Char) : Bool :=
  match l with
  | [] => false
  | c :: rest => c.isAlphanum && rest.all isEmailDomChar

/-- Top-level domain `[A-Za-z]{2,}` of the zod email regex. -/
def validTld (l : List Char) : Bool :=
  decide (2 ≤ l.length) && l.all Char.isAlpha

/-- Domain part `([A-Za-z0-9][A-Za-z0-9-]*\.)+[A-Za-z]{2,}` of the zod
email regex: at least one label, then a final alphabetic TLD. -/
def validDomain (cs : List Char) : Bool :=
  match (splitOnDot cs).reverse with
  | tld :: l :: rest => validTld tld && (l :: rest).all validDomainLabel
  | _ => false

/-- The check performed by zod `z.string().email()` (zod v3.22+ regex
`^(?!\.)(?!.*\.\.)([A-Za-z0-9_'+\-.]*)[A-Za-z0-9_+-]@([A-Za-z0-9][A-Za-z0-9-]*\.)+[A-Za-z]\x7b2,\x7d$`,
case-insensitive classes written out). Used by the `email` field of all
three schemas. -/
def isValidEmail (s : String) : Bool :=
  let cs := s.data
  (match cs with
   | '.' :: _ => false
   | _ => true) &&
  !(hasDoubleDot cs) &&
  (match splitAtAt cs with
   | some (l, d) => validLocal l && validDomain d
   | none => false)

/-- The check performed by the zod regex `^\+[1-9]\d\x7b1,14\x7d$` guarding
`whatsapp_number` in part_000 and `whatsapp_numer` in part_001: a plus
sign, a nonzero digit, then one to fourteen digits. -/
def matchesE164 (s : String) : Bool :=
  match s.data with
  | p :: c :: rest =>
      p == '+' && (decide ('1' ≤ c) && decide (c ≤ '9')) &&
      rest.all Char.isDigit &&
      (decide (1 ≤ rest.length) && decide (rest.length ≤ 14))
  | _ => false

/-- JavaScript WhiteSpace and LineTerminator characters skipped by
`parseInt` (the ASCII ones; the sources never reach the Unicode ones). -/
def jsWhitespace (c : Char) : Bool :=
  c == ' ' || c == '\t' || c == '\n' || c == '\r' || c == '\x0b' || c == '\x0c'

/-- Hexadecimal digit, for the `0x` branch of JavaScript `parseInt`. -/
def isHexDigit (c : Char) : Bool :=
  c.isDigit || (decide ('a' ≤ c) && decide (c ≤ 'f')) ||
    (decide ('A' ≤ c) && decide (c ≤ 'F'))

/-- Numeric value of a hexadecimal digit character. -/
def hexVal (c : Char) : Nat :=
  if c.isDigit then c.toNat - 48
  else if decide ('a' ≤ c) && decide (c ≤ 'f') then c.toNat - 87
  else c.toNat - 55

/-- Longest prefix of digits interpreted in the given base; `none` when the
prefix is empty (JavaScript NaN). -/
def parseDigits (isDig : Char → Bool) (val : Char → Nat) (base : Nat)
    (cs : List Char) : Option Nat :=
  let ds := cs.takeWhile isDig
  if ds.isEmpty then none
  else some (ds.foldl (fun a c => a * base + val c) 0)

/-- JavaScript `parseInt(s)` with no radix argument, as called in
register.tsx line 102 and part_000 lines 110 to 111: skip whitespace, read
an optional sign, use base 16 after a `0x` or `0X` prefix and base 10
otherwise, and return NaN (here `none`) when no digit follows. -/
def jsParseInt (s : String) : Option Int :=
  let cs := s.data.dropWhile jsWhitespace
  let sgn : Int :=
    match cs with
    | '-' :: _ => -1
    | _ => 1
  let cs1 : List Char :=
    match cs with
    | '+' :: r => r
    | '-' :: r => r
    | r => r
  let nat? : Option Nat :=
    match cs1 with
    | '0' :: x :: r =>
        if x == 'x' || x == 'X' then parseDigits isHexDigit hexVal 16 r
        else parseDigits Char.isDigit (fun c => c.toNat - 48) 10 cs1
    | _ => parseDigits Char.isDigit (fun c => c.toNat - 48) 10 cs1
  nat?.map (fun n => sgn * (n : Int))

/-! ## Shared network and page model -/

/-- A record of a reference list returned by the remote API, the element
type of the `countries`, `roles` and `subjects` React state in all three
files. -/
structure RefOption where
  id : Int
  name : String
deriving Repr, DecidableEq

/-- The three option-list states of a mounted page (register.tsx only uses
`countries`; part_000 uses `countries` and `roles`; part_001 uses all
three). Initial state of each list is the empty list. -/
structure PageState where
  countries : List RefOption
  roles : List RefOption
  subjects : List RefOption
deriving Repr, DecidableEq

/-- The initial option-list state passed to `useState` in every file. -/
def initialPageState : PageState :=
  { countries := [], roles := [], subjects := [] }

/-- A reference-list fetch as seen by the component: the HTTP `ok` flag and
the result of `res.json()`, which either parses to a list of records or
throws (`Except.error`). -/
structure FetchResponse where
  ok : Bool
  body : Except Unit (List RefOption)

/-- One toast notification, identified by its text. -/
abbrev Toast := String

/-- The `fetchCountries` effect body shared by all three files: on a
non-ok status the function throws before parsing, and any throw is caught,
logged and surfaced as one `Failed to load countries` toast, leaving the
state untouched; on success the parsed array replaces `countries`. -/
def fetchCountriesStep (resp : FetchResponse) (st : PageState) :
    PageState × List Toast :=
  if resp.ok then
    match resp.body with
    | .ok data => ({ st with countries := data }, [])
    | .error _ => (st, ["Failed to load countries"])
  else (st, ["Failed to load countries"])

/-- The `fetchRoles` effect body of part_000 and part_001 (absent from
register.tsx), identical to `fetchCountriesStep` up to the resource. -/
def fetchRolesStep (resp : FetchResponse) (st : PageState) :
    PageState × List Toast :=
  if resp.ok then
    match resp.body with
    | .ok data => ({ st with roles := data }, [])
    | .error _ => (st, ["Failed to load roles"])
  else (st, ["Failed to load roles"])

/-- The `fetchSubjects` effect body of part_001 only. -/
def fetchSubjectsStep (resp : FetchResponse) (st : PageState) :
    PageState × List Toast :=
  if resp.ok then
    match resp.body with
    | .ok data => ({ st with subjects := data }, [])
    | .error _ => (st, ["Failed to load subjects"])
  else (st, ["Failed to load subjects"])

/-- The hard-coded base URL of register.tsx line 29 and part_000 line 30. -/
def baseUrl : String := "https://api.olympcentre.uz/"

/-- The URLs requested by the mount effects of register.tsx: a single GET
for countries (line 77); the role choices come from the hard-coded
`roleOptions` constant, no request is made for them. -/
def mountRequestsR : List String :=
  [baseUrl ++ "api/countries/"]

/-- The URLs requested by the mount effects of part_000: countries
(line 69) and roles (line 89). -/
def mountRequestsP0 : List String :=
  [baseUrl ++ "api/countries/", baseUrl ++ "api/roles/"]

/-- The URLs requested by the mount effects of part_001 (lines 81, 101 and
121), over its environment-supplied base URL. -/
def mountRequestsP1 (base : String) : List String :=
  [base ++ "api/countries/", base ++ "api/roles/", base ++ "api/subjects/"]

/-- The hard-coded role choices of register.tsx lines 32 to 35, as
(id, value, label) triples; the rendered select uses `value`. -/
def roleOptionsR : List (String × String × String) :=
  [("1", "Team Leader", "Team Leader"),
   ("2", "Team Coordinator", "Team Coordinator")]

/-! ## Submission response handling, shared shape -/

/-- The submission POST response as seen by `onSubmit`: the HTTP `ok` flag
and the result of `res.json()` on the error branch, which either yields the
optional string `message` field (`none` when absent or null) or throws. -/
structure SubmitResponse where
  ok : Bool
  body : Except Unit (Option String)

/-- JavaScript `a || b` on the `message` field: the fallback is used when
the field is absent or the empty string (the only falsy string). -/
def jsOrElse (m : Option String) (fallback : String) : String :=
  match m with
  | some s => if s == "" then fallback else s
  | none => fallback

/-- The fallback toast of the non-ok submission branch in all three files. -/
def failSubmitMsg : String := "Failed to submit registration."

/-- The toast of the catch branch of `onSubmit` in all three files. -/
def caughtSubmitMsg : String := "An error occurred while submitting."

/-- Outcome of one submission attempt: the toasts raised and whether
`form.reset()` ran. -/
structure SubmitOutcome where
  toasts : List Toast
  didReset : Bool
deriving Repr, DecidableEq

/-- The response-handling tail of `onSubmit`, identical in all three files
up to the success message: on ok, success toast and reset; otherwise the
error body's `message` field (JavaScript or-else the fallback) is shown; a
body that fails to parse throws into the catch branch and shows the
generic caught message. No reset happens on either failure path. -/
def handleSubmitResponse (successMsg : String) (resp : SubmitResponse) :
    SubmitOutcome :=
  if resp.ok then
    { toasts := [successMsg], didReset := true }
  else
    match resp.body with
    | .ok m => { toasts := [jsOrElse m failSubmitMsg], didReset := false }
    | .error _ => { toasts := [caughtSubmitMsg], didReset := false }

/-! ## Variant R: src/components/register.tsx -/

/-- The form values of register.tsx (`z.infer` of its `formSchema`,
lines 37 to 48): every field is a string. -/
structure FormValuesR where
  full_name : String
  country : String
  role : String
  email : String
  phone_number : String
  students_coming : String
deriving Repr, DecidableEq

/-- The zod `formSchema` of register.tsx lines 37 to 48: full name at least
3 characters, country, role, phone number and students count non-empty,
email well formed. -/
def formSchemaR (v : FormValuesR) : Bool :=
  zMin 3 v.full_name && zMin 1 v.country && zMin 1 v.role &&
  isValidEmail v.email && zMin 1 v.phone_number && zMin 1 v.students_coming

/-- The `defaultValues` of register.tsx lines 60 to 67, also the state
`form.reset()` restores. -/
def defaultValuesR : FormValuesR :=
  { full_name := "", country := "", role := "", email := "",
    phone_number := "", students_coming := "0" }

/-- The payload built in `onSubmit` of register.tsx lines 100 to 107; the
country is `parseInt` of the selected id string (`none` models NaN), the
role is the selected text unchanged. -/
structure PayloadR where
  full_name : String
  country : Option Int
  role : String
  email : String
  phone_number : String
  students_coming : String
deriving Repr, DecidableEq

/-- The `formData` construction of register.tsx lines 100 to 107. -/
def buildPayloadR (v : FormValuesR) : PayloadR :=
  { full_name := v.full_name
    country := jsParseInt v.country
    role := v.role
    email := v.email
    phone_number := v.phone_number
    students_coming := v.students_coming }

/-- A POST request: its URL and its JSON payload. -/
structure Request (α : Type) where
  url : String
  payload : α
deriving Repr, DecidableEq

/-- One submit attempt of register.tsx: `form.handleSubmit(onSubmit)`
(line 172) runs `onSubmit` only when the zod resolver (line 59) accepts the
values, so a payload is built and a POST to
`baseUrl ++ "api/participation-requests/"` (line 109) is issued exactly on
valid values; invalid values produce no request. -/
def submitAttemptR (v : FormValuesR) : Option (Request PayloadR) :=
  if formSchemaR v then
    some { url := baseUrl ++ "api/participation-requests/",
           payload := buildPayloadR v }
  else none

/-- The success toast of register.tsx lines 118 to 120. -/
def successMsgR : String :=
  "Thank you for your registration. You will receive a confirmation email from the organization shortly. Please allow a few moments for this correspondence to arrive."

/-- The response handling of `onSubmit` in register.tsx lines 117 to 129
together with its effect on the form state: `form.reset()` restores
`defaultValuesR` on success, otherwise the values are left unchanged. -/
def submitCycleR (v : FormValuesR) (resp : SubmitResponse) :
    SubmitOutcome × FormValuesR :=
  let o := handleSubmitResponse successMsgR resp
  (o, if o.didReset then defaultValuesR else v)

/-! ## Variant P0: src/unnamed/part_000 -/

/-- The form values of part_000 (`z.infer` of its `formSchema`, lines 32
to 46). -/
structure FormValuesP0 where
  full_name : String
  country : String
  role : String
  email : String
  whatsapp_number : String
  number_of_students : String
deriving Repr, DecidableEq

/-- The zod `formSchema` of part_000 lines 32 to 46: full name at least 3
characters, country, role and students count non-empty, email well formed,
whatsapp number matching the E.164-style regex. -/
def formSchemaP0 (v : FormValuesP0) : Bool :=
  zMin 3 v.full_name && zMin 1 v.country && zMin 1 v.role &&
  isValidEmail v.email && matchesE164 v.whatsapp_number &&
  zMin 1 v.number_of_students

/-- The `defaultValues` of part_000 lines 51 to 58. -/
def defaultValuesP0 : FormValuesP0 :=
  { full_name := "", country := "", role := "", email := "",
    whatsapp_number := "", number_of_students := "0" }

/-- The payload built in `onSubmit` of part_000 lines 108 to 115: both the
country and the role id strings go through `parseInt`. -/
structure PayloadP0 where
  full_name : String
  country : Option Int
  role : Option Int
  email : String
  whatsapp_number : String
  number_of_students : String
deriving Repr, DecidableEq

/-- The `formData` construction of part_000 lines 108 to 115. -/
def buildPayloadP0 (v : FormValuesP0) : PayloadP0 :=
  { full_name := v.full_name
    country := jsParseInt v.country
    role := jsParseInt v.role
    email := v.email
    whatsapp_number := v.whatsapp_number
    number_of_students := v.number_of_students }

/-- One submit attempt of part_000: `form.handleSubmit(onSubmit)`
(line 179) gated by the zod resolver (line 50); the POST goes to
`baseUrl ++ "api/participation-requests/"` (line 117). -/
def submitAttemptP0 (v : FormValuesP0) : Option (Request PayloadP0) :=
  if formSchemaP0 v then
    some { url := baseUrl ++ "api/participation-requests/",
           payload := buildPayloadP0 v }
  else none

/-- The success toast of part_000 lines 125 to 127 (same text as
register.tsx). -/
def successMsgP0 : String := successMsgR

/-- The response handling of `onSubmit` in part_000 lines 124 to 136 with
its effect on the form state. -/
def submitCycleP0 (v : FormValuesP0) (resp : SubmitResponse) :
    SubmitOutcome × FormValuesP0 :=
  let o := handleSubmitResponse successMsgP0 resp
  (o, if o.didReset then defaultValuesP0 else v)

/-! ## Variant P1: src/unnamed/part_001 -/

/-- The form values of part_001 (`z.infer` of its `formSchema`, lines 29
to 53). -/
structure FormValuesP1 where
  full_name : String
  country : String
  role : String
  subject : String
  email : String
  whatsapp_numer : String
  maths_students : String
  informatics_students : String
  maths_team_leaders : String
  informatics_team_leaders : String
deriving Repr, DecidableEq

/-- The zod `formSchema` of part_001 lines 29 to 53: full name at least 2
characters, country, role, subject and the four headcount fields
non-empty, email well formed, whatsapp number matching the E.164-style
regex. -/
def formSchemaP1 (v : FormValuesP1) : Bool :=
  zMin 2 v.full_name && zMin 1 v.country && zMin 1 v.role &&
  zMin 1 v.subject && isValidEmail v.email && matchesE164 v.whatsapp_numer &&
  zMin 1 v.maths_students && zMin 1 v.informatics_students &&
  zMin 1 v.maths_team_leaders && zMin 1 v.informatics_team_leaders

/-- The `defaultValues` of part_001 lines 58 to 69. -/
def defaultValuesP1 : FormValuesP1 :=
  { full_name := "", country := "", role := "", subject := "", email := "",
    whatsapp_numer := "", maths_students := "0", informatics_students := "0",
    maths_team_leaders := "0", informatics_team_leaders := "0" }

/-- The `participants` sub-object of the part_001 payload, lines 147
to 152: the four headcount strings, unconverted. -/
structure ParticipantsP1 where
  maths_students : String
  informatics_students : String
  maths_team_leaders : String
  informatics_team_leaders : String
deriving Repr, DecidableEq

/-- The payload built in `onSubmit` of part_001 lines 140 to 153: every
top-level field is the unchanged string form value and the headcounts are
nested under `participants`. -/
structure PayloadP1 where
  full_name : String
  country : String
  role : String
  subject : String
  email : String
  whatsapp_numer : String
  participants : ParticipantsP1
deriving Repr, DecidableEq

/-- The `formData` construction of part_001 lines 140 to 153. -/
def buildPayloadP1 (v : FormValuesP1) : PayloadP1 :=
  { full_name := v.full_name
    country := v.country
    role := v.role
    subject := v.subject
    email := v.email
    whatsapp_numer := v.whatsapp_numer
    participants :=
      { maths_students := v.maths_students
        informatics_students := v.informatics_students
        maths_team_leaders := v.maths_team_leaders
        informatics_team_leaders := v.informatics_team_leaders } }

/-- One submit attempt of part_001: `form.handleSubmit(onSubmit)`
(line 208) gated by the zod resolver (line 57); the POST goes to
`base ++ "api/participation-requests/"` (line 155) where `base` is the
environment-supplied base URL of line 27. -/
def submitAttemptP1 (base : String) (v : FormValuesP1) :
    Option (Request PayloadP1) :=
  if formSchemaP1 v then
    some { url := base ++ "api/participation-requests/",
           payload := buildPayloadP1 v }
  else none

/-- The success toast of part_001 line 164. -/
def successMsgP1 : String := "Registration submitted successfully!"

/-- The response handling of `onSubmit` in part_001 lines 163 to 173 with
its effect on the form state. -/
def submitCycleP1 (v : FormValuesP1) (resp : SubmitResponse) :
    SubmitOutcome × FormValuesP1 :=
  let o := handleSubmitResponse successMsgP1 resp
  (o, if o.didReset then defaultValuesP1 else v)

/-! ## Sample inputs and schema characterizations -/

/-- A form input accepted by the register.tsx schema. -/
def sampleFormR : FormValuesR :=
  { full_name := "John Doe", country := "3", role := "Team Leader",
    email := "john.doe@example.com", phone_number := "934798949",
    students_coming := "2" }

/-- A form input accepted by the part_000 schema. -/
def sampleFormP0 : FormValuesP0 :=
  { full_name := "John Doe", country := "3", role := "2",
    email := "john.doe@example.com", whatsapp_number := "+1234567890",
    number_of_students := "2" }

/-- A form input accepted by the part_001 schema. -/
def sampleFormP1 : FormValuesP1 :=
  { full_name := "John Doe", country := "3", role := "2", subject := "1",
    email := "john.doe@example.com", whatsapp_numer := "+1234567890",
    maths_students := "2", informatics_students := "1",
    maths_team_leaders := "1", informatics_team_leaders := "0" }

/-- The register.tsx schema accepts exactly the conjunction of its six
field rules. -/
theorem schemaR_iff (v : FormValuesR) :
    formSchemaR v = true ↔
      3 ≤ v.full_name.length ∧ 1 ≤ v.country.length ∧ 1 ≤ v.role.length ∧
      isValidEmail v.email = true ∧ 1 ≤ v.phone_number.length ∧
      1 ≤ v.students_coming.length := by
  simp [formSchemaR, zMin, and_assoc]

/-- The part_000 schema accepts exactly the conjunction of its six field
rules. -/
theorem schemaP0_iff (v : FormValuesP0) :
    formSchemaP0 v = true ↔
      3 ≤ v.full_name.length ∧ 1 ≤ v.country.length ∧ 1 ≤ v.role.length ∧
      isValidEmail v.email = true ∧ matchesE164 v.whatsapp_number = true ∧
      1 ≤ v.number_of_students.length := by
  simp [formSchemaP0, zMin, and_assoc]

/-- The part_001 schema accepts exactly the conjunction of its ten field
rules. -/
theorem schemaP1_iff (v : FormValuesP1) :
    formSchemaP1 v = true ↔
      2 ≤ v.full_name.length ∧ 1 ≤ v.country.length ∧ 1 ≤ v.role.length ∧
      1 ≤ v.subject.length ∧ isValidEmail v.email = true ∧
      matchesE164 v.whatsapp_numer = true ∧ 1 ≤ v.maths_students.length ∧
      1 ≤ v.informatics_students.length ∧ 1 ≤ v.maths_team_leaders.length ∧
      1 ≤ v.informatics_team_leaders.length := by
  simp [formSchemaP1, zMin, and_assoc]

/-- C1: in every variant a submission payload is built and the POST is
issued exactly when the form values satisfy the full zod schema; when any
field violates its rule, the submit attempt produces no request at all. -/
theorem c1_submission_gated_by_schema :
    (∀ v : FormValuesR, (∃ r, submitAttemptR v = some r) ↔ formSchemaR v = true) ∧
    (∀ v : FormValuesP0, (∃ r, submitAttemptP0 v = some r) ↔ formSchemaP0 v = true) ∧
    (∀ (base : String) (v : FormValuesP1),
      (∃ r, submitAttemptP1 base v = some r) ↔ formSchemaP1 v = true) ∧
    (∀ v : FormValuesR,
      v.full_name.length < 3 ∨ v.country.length < 1 ∨ v.role.length < 1 ∨
      isValidEmail v.email = false ∨ v.phone_number.length < 1 ∨
      v.students_coming.length < 1 → submitAttemptR v = none) ∧
    (∀ v : FormValuesP0,
      v.full_name.length < 3 ∨ v.country.length < 1 ∨ v.role.length < 1 ∨
      isValidEmail v.email = false ∨ matchesE164 v.whatsapp_number = false ∨
      v.number_of_students.length < 1 → submitAttemptP0 v = none) ∧
    (∀ (base : String) (v : FormValuesP1),
      v.full_name.length < 2 ∨ v.country.length < 1 ∨ v.role.length < 1 ∨
      v.subject.length < 1 ∨ isValidEmail v.email = false ∨
      matchesE164 v.whatsapp_numer = false ∨ v.maths_students.length < 1 ∨
      v.informatics_students.length < 1 ∨ v.maths_team_leaders.length < 1 ∨
      v.informatics_team_leaders.length < 1 → submitAttemptP1 base v = none) := by
  refine ⟨?_, ?_, ?_, ?_, ?_, ?_⟩
  · intro v
    constructor
    · rintro ⟨r, hr⟩
      cases hf : formSchemaR v with
      | true => rfl
      | false => simp [submitAttemptR, hf] at hr
    · intro h
      exact ⟨{ url := baseUrl ++ "api/participation-requests/",
               payload := buildPayloadR v }, by simp [submitAttemptR, h]⟩
  · intro v
    constructor
    · rintro ⟨r, hr⟩
      cases hf : formSchemaP0 v with
      | true => rfl
      | false => simp [submitAttemptP0, hf] at hr
    · intro h
      exact ⟨{ url := baseUrl ++ "api/participation-requests/",
               payload := buildPayloadP0 v }, by simp [submitAttemptP0, h]⟩
  · intro base v
    constructor
    · rintro ⟨r, hr⟩
      cases hf : formSchemaP1 v with
      | true => rfl
      | false => simp [submitAttemptP1, hf] at hr
    · intro h
      exact ⟨{ url := base ++ "api/participation-requests/",
               payload := buildPayloadP1 v }, by simp [submitAttemptP1, h]⟩
  · intro v hv
    have hne : formSchemaR v ≠ true := by
      intro h
      obtain ⟨h1, h2, h3, h4, h5, h6⟩ := (schemaR_iff v).mp h
      rcases hv with hv | hv | hv | hv | hv | hv
      · omega
      · omega
      · omega
      · simp [h4] at hv
      · omega
      · omega
    simp [submitAttemptR, Bool.eq_false_iff.mpr hne]
  · intro v hv
    have hne : formSchemaP0 v ≠ true := by
      intro h
      obtain ⟨h1, h2, h3, h4, h5, h6⟩ := (schemaP0_iff v).mp h
      rcases hv with hv | hv | hv | hv | hv | hv
      · omega
      · omega
      · omega
      · simp [h4] at hv
      · simp [h5] at hv
      · omega
    simp [submitAttemptP0, Bool.eq_false_iff.mpr hne]
  · intro base v hv
    have hne : formSchemaP1 v ≠ true := by
      intro h
      obtain ⟨h1, h2, h3, h4, h5, h6, h7, h8, h9, h10⟩ := (schemaP1_iff v).mp h
      rcases hv with hv | hv | hv | hv | hv | hv | hv | hv | hv | hv
      · omega
      · omega
      · omega
      · omega
      · simp [h5] at hv
      · simp [h6] at hv
      · omega
      · omega
      · omega
      · omega
    simp [submitAttemptP1, Bool.eq_false_iff.mpr hne]

/-- Witness for C1: a length-2 full name blocks the register.tsx submit
entirely, while the sample valid form does produce a request. -/
theorem c1_witness :
    submitAttemptR { sampleFormR with full_name := "Jo" } = none ∧
    (∃ r, submitAttemptR sampleFormR = some r) ∧
    submitAttemptP0 { sampleFormP0 with whatsapp_number := "1234567890" } = none ∧
    (∃ r, submitAttemptP0 sampleFormP0 = some r) ∧
    submitAttemptP1 "https://api.olympcentre.uz/" { sampleFormP1 with full_name := "J" } = none ∧
    (∃ r, submitAttemptP1 "https://api.olympcentre.uz/" sampleFormP1 = some r) := by
  refine ⟨?_, ?_, ?_, ?_, ?_, ?_⟩
  · exact c1_submission_gated_by_schema.2.2.2.1 _ (Or.inl (by decide))
  · exact (c1_submission_gated_by_schema.1 sampleFormR).mpr (by decide)
  · exact c1_submission_gated_by_schema.2.2.2.2.1 _
      (Or.inr (Or.inr (Or.inr (Or.inr (Or.inl (by decide))))))
  · exact (c1_submission_gated_by_schema.2.1 sampleFormP0).mpr (by decide)
  · exact c1_submission_gated_by_schema.2.2.2.2.2 _ _ (Or.inl (by decide))
  · exact (c1_submission_gated_by_schema.2.2.1 _ sampleFormP1).mpr (by decide)

/-- C2: in the flat-payload variants a valid form with country id string
"3" yields a payload whose country is the integer 3 and a POST to exactly
`https://api.olympcentre.uz/api/participation-requests/`; part_000 also
converts the role id string "2" to the integer 2, while register.tsx sends
the role text unchanged. -/
theorem c2_flat_payload_int_conversion :
    (∀ v : FormValuesR, formSchemaR v = true → v.country = "3" →
      submitAttemptR v =
        some { url := "https://api.olympcentre.uz/api/participation-requests/",
               payload := { full_name := v.full_name, country := some 3,
                            role := v.role, email := v.email,
                            phone_number := v.phone_number,
                            students_coming := v.students_coming } }) ∧
    (∀ v : FormValuesP0, formSchemaP0 v = true → v.country = "3" → v.role = "2" →
      submitAttemptP0 v =
        some { url := "https://api.olympcentre.uz/api/participation-requests/",
               payload := { full_name := v.full_name, country := some 3,
                            role := some 2, email := v.email,
                            whatsapp_number := v.whatsapp_number,
                            number_of_students := v.number_of_students } }) := by
  constructor
  · intro v h hc
    simp [submitAttemptR, h, buildPayloadR, hc]
    exact ⟨by decide, by decide⟩
  · intro v h hc hr
    simp [submitAttemptP0, h, buildPayloadP0, hc, hr]
    exact ⟨by decide, by decide, by decide⟩

/-- Witness for C2 at the sample valid forms, whose country is "3" and
whose part_000 role is "2". -/
theorem c2_witness :
    submitAttemptR sampleFormR =
      some { url := "https://api.olympcentre.uz/api/participation-requests/",
             payload := { full_name := "John Doe", country := some 3,
                          role := "Team Leader",
                          email := "john.doe@example.com",
                          phone_number := "934798949",
                          students_coming := "2" } } ∧
    submitAttemptP0 sampleFormP0 =
      some { url := "https://api.olympcentre.uz/api/participation-requests/",
             payload := { full_name := "John Doe", country := some 3,
                          role := some 2, email := "john.doe@example.com",
                          whatsapp_number := "+1234567890",
                          number_of_students := "2" } } := by
  exact ⟨c2_flat_payload_int_conversion.1 sampleFormR (by decide) rfl,
         c2_flat_payload_int_conversion.2 sampleFormP0 (by decide) rfl rfl⟩

/-- C3: the part_001 payload nests exactly the four headcount fields under
`participants` and passes every remaining field through as the unchanged
string form value. -/
theorem c3_nested_payload_passthrough :
    ∀ (base : String) (v : FormValuesP1), formSchemaP1 v = true →
      submitAttemptP1 base v =
        some { url := base ++ "api/participation-requests/",
               payload := { full_name := v.full_name, country := v.country,
                            role := v.role, subject := v.subject,
                            email := v.email,
                            whatsapp_numer := v.whatsapp_numer,
                            participants :=
                              { maths_students := v.maths_students,
                                informatics_students := v.informatics_students,
                                maths_team_leaders := v.maths_team_leaders,
                                informatics_team_leaders := v.informatics_team_leaders } } } := by
  intro base v h
  simp [submitAttemptP1, h, buildPayloadP1]

/-- Witness for C3 at the sample valid part_001 form. -/
theorem c3_witness :
    submitAttemptP1 "https://api.example.org/" sampleFormP1 =
      some { url := "https://api.example.org/api/participation-requests/",
             payload := { full_name := "John Doe", country := "3",
                          role := "2", subject := "1",
                          email := "john.doe@example.com",
                          whatsapp_numer := "+1234567890",
                          participants :=
                            { maths_students := "2",
                              informatics_students := "1",
                              maths_team_leaders := "1",
                              informatics_team_leaders := "0" } } } := by
  exact c3_nested_payload_passthrough "https://api.example.org/" sampleFormP1 (by decide)

/-- The register.tsx field rules other than the full-name rule. -/
def otherRulesR (v : FormValuesR) : Bool :=
  zMin 1 v.country && zMin 1 v.role && isValidEmail v.email &&
  zMin 1 v.phone_number && zMin 1 v.students_coming

/-- The part_000 field rules other than the full-name rule. -/
def otherRulesP0 (v : FormValuesP0) : Bool :=
  zMin 1 v.country && zMin 1 v.role && isValidEmail v.email &&
  matchesE164 v.whatsapp_number && zMin 1 v.number_of_students

/-- The part_001 field rules other than the full-name rule. -/
def otherRulesP1 (v : FormValuesP1) : Bool :=
  zMin 1 v.country && zMin 1 v.role && zMin 1 v.subject &&
  isValidEmail v.email && matchesE164 v.whatsapp_numer &&
  zMin 1 v.maths_students && zMin 1 v.informatics_students &&
  zMin 1 v.maths_team_leaders && zMin 1 v.informatics_team_leaders

/-- C4: full-name validation is an inclusive length threshold, 3 in
register.tsx and part_000 and 2 in part_001: with the other field rules
satisfied, the schema accepts exactly the names at or above the minimum,
as the boundary instances of lengths 1, 2 and 3 show. -/
theorem c4_full_name_threshold :
    (∀ v : FormValuesR,
      formSchemaR v = true ↔ 3 ≤ v.full_name.length ∧ otherRulesR v = true) ∧
    (∀ v : FormValuesP0,
      formSchemaP0 v = true ↔ 3 ≤ v.full_name.length ∧ otherRulesP0 v = true) ∧
    (∀ v : FormValuesP1,
      formSchemaP1 v = true ↔ 2 ≤ v.full_name.length ∧ otherRulesP1 v = true) ∧
    formSchemaR { sampleFormR with full_name := "Jo" } = false ∧
    formSchemaR { sampleFormR with full_name := "Joe" } = true ∧
    formSchemaP0 { sampleFormP0 with full_name := "Jo" } = false ∧
    formSchemaP0 { sampleFormP0 with full_name := "Joe" } = true ∧
    formSchemaP1 { sampleFormP1 with full_name := "J" } = false ∧
    formSchemaP1 { sampleFormP1 with full_name := "Jo" } = true := by
  refine ⟨?_, ?_, ?_, by decide, by decide, by decide, by decide, by decide, by decide⟩
  · intro v
    simp [formSchemaR, otherRulesR, zMin, and_assoc]
  · intro v
    simp [formSchemaP0, otherRulesP0, zMin, and_assoc]
  · intro v
    simp [formSchemaP1, otherRulesP1, zMin, and_assoc]

/-- C5: the whatsapp-number rule of part_000 and part_001 accepts exactly
the strings of shape plus sign, nonzero digit, one to fourteen digits
(the regex `^\+[1-9]\d\x7b1,14\x7d$`), so "1234567890" fails and
"+1234567890" passes there, while the register.tsx phone rule only demands
a non-empty string, so "1234567890" passes it. -/
theorem c5_contact_number_rules :
    (∀ s : String, matchesE164 s = true ↔
      ∃ c rest, s.data = '+' :: c :: rest ∧ '1' ≤ c ∧ c ≤ '9' ∧
        (∀ d ∈ rest, d.isDigit = true) ∧ 1 ≤ rest.length ∧ rest.length ≤ 14) ∧
    matchesE164 "1234567890" = false ∧
    matchesE164 "+1234567890" = true ∧
    zMin 1 "1234567890" = true ∧
    (∀ v : FormValuesP0, formSchemaP0 v = true → matchesE164 v.whatsapp_number = true) ∧
    (∀ v : FormValuesP1, formSchemaP1 v = true → matchesE164 v.whatsapp_numer = true) ∧
    (∀ v : FormValuesR, formSchemaR v = true → 1 ≤ v.phone_number.length) := by
  refine ⟨?_, by decide, by decide, by decide, ?_, ?_, ?_⟩
  · intro s
    obtain ⟨cs⟩ := s
    rcases cs with _ | ⟨p, _ | ⟨c, rest⟩⟩
    · simp [matchesE164]
    · simp [matchesE164]
    · simp [matchesE164, List.all_eq_true, List.cons.injEq]
      constructor
      · rintro ⟨⟨⟨hp, h1, h2⟩, hall⟩, hlen1, hlen2⟩
        exact ⟨c, rest, ⟨hp, rfl, rfl⟩, h1, h2, hall, hlen1, hlen2⟩
      · rintro ⟨c', rest', ⟨hp, hc, hr⟩, h1, h2, hall, hlen1, hlen2⟩
        subst hc; subst hr
        exact ⟨⟨⟨hp, h1, h2⟩, hall⟩, hlen1, hlen2⟩
  · intro v h
    exact ((schemaP0_iff v).mp h).2.2.2.2.1
  · intro v h
    exact ((schemaP1_iff v).mp h).2.2.2.2.2.1
  · intro v h
    exact ((schemaR_iff v).mp h).2.2.2.2.1

/-- Witness for C5: the implications applied at the sample valid forms. -/
theorem c5_witness :
    matchesE164 sampleFormP0.whatsapp_number = true ∧
    matchesE164 sampleFormP1.whatsapp_numer = true ∧
    1 ≤ sampleFormR.phone_number.length := by
  exact ⟨c5_contact_number_rules.2.2.2.2.1 sampleFormP0 (by decide),
         c5_contact_number_rules.2.2.2.2.2.1 sampleFormP1 (by decide),
         c5_contact_number_rules.2.2.2.2.2.2 sampleFormR (by decide)⟩

/-- C6: when a reference-list fetch has a non-ok HTTP status or its body
fails to parse, the effect emits exactly one failed-to-load toast for that
resource and leaves the whole page state, hence every option list,
unchanged. -/
theorem c6_fetch_failure_leaves_lists_empty :
    ∀ (resp : FetchResponse) (st : PageState),
      resp.ok = false ∨ resp.body = Except.error () →
      fetchCountriesStep resp st = (st, ["Failed to load countries"]) ∧
      fetchRolesStep resp st = (st, ["Failed to load roles"]) ∧
      fetchSubjectsStep resp st = (st, ["Failed to load subjects"]) := by
  rintro ⟨ok, body⟩ st (h | h)
  · subst h
    exact ⟨rfl, rfl, rfl⟩
  · subst h
    cases ok <;>
      exact ⟨rfl, rfl, rfl⟩

/-- Witness for C6: an HTTP 500 response and an unparsable-body response,
applied at the initial empty page state, each leave it empty with exactly
one toast. -/
theorem c6_witness :
    fetchCountriesStep { ok := false, body := Except.ok [] } initialPageState
      = (initialPageState, ["Failed to load countries"]) ∧
    fetchRolesStep { ok := true, body := Except.error () } initialPageState
      = (initialPageState, ["Failed to load roles"]) := by
  exact ⟨(c6_fetch_failure_leaves_lists_empty _ initialPageState (Or.inl rfl)).1,
         (c6_fetch_failure_leaves_lists_empty _ initialPageState (Or.inr rfl)).2.1⟩

/-- Counterexample for C7: the claim asserts that every variant issues a
GET for the roles list it renders, but register.tsx requests only the
countries URL on mount; the roles URL is requested by no effect of that
file, its role choices being the hard-coded `roleOptions` constant. -/
theorem c7_counterexample :
    mountRequestsR = ["https://api.olympcentre.uz/api/countries/"] ∧
    ((baseUrl ++ "api/roles/") ∈ mountRequestsR → False) := by
  constructor
  · rfl
  · intro h
    simp [mountRequestsR, baseUrl] at h

/-- C7 (amended): on initial display part_000 issues one GET each for
countries and roles, part_001 one GET each for countries, roles and
subjects, while register.tsx issues one GET for countries only and renders
its role choices from the hard-coded `roleOptions` constant; every
successful fetch populates exactly its own option list with the parsed
array of records. -/
theorem c7_mount_requests :
    mountRequestsR = [baseUrl ++ "api/countries/"] ∧
    mountRequestsP0 = [baseUrl ++ "api/countries/", baseUrl ++ "api/roles/"] ∧
    (∀ base : String, mountRequestsP1 base =
      [base ++ "api/countries/", base ++ "api/roles/", base ++ "api/subjects/"]) ∧
    roleOptionsR.map (fun t => t.2.1) = ["Team Leader", "Team Coordinator"] ∧
    (∀ (st : PageState) (data : List RefOption),
      fetchCountriesStep { ok := true, body := Except.ok data } st
        = ({ st with countries := data }, []) ∧
      fetchRolesStep { ok := true, body := Except.ok data } st
        = ({ st with roles := data }, []) ∧
      fetchSubjectsStep { ok := true, body := Except.ok data } st
        = ({ st with subjects := data }, [])) := by
  exact ⟨rfl, rfl, fun base => rfl, rfl, fun st data => ⟨rfl, rfl, rfl⟩⟩

/-- Counterexample for C8: the claim asserts the message field of the
error body is always displayed exactly as received, but for the body with
the empty-string message the JavaScript or-else of the code substitutes
the generic fallback, so the empty message is never shown. -/
theorem c8_counterexample :
    (handleSubmitResponse successMsgR
        { ok := false, body := Except.ok (some "") }).toasts
      = ["Failed to submit registration."] ∧
    ((handleSubmitResponse successMsgR
        { ok := false, body := Except.ok (some "") }).toasts = [""] → False) := by
  constructor
  · rfl
  · intro h
    simp [handleSubmitResponse, jsOrElse, failSubmitMsg] at h

/-- C8 (amended): on a non-ok submission response, a present non-empty
message field is shown exactly as received (for example the exact string
"Email already registered"); the generic fallback is shown when the field
is absent or the empty string, and the generic caught message when the
body is unparsable; in every such case no reset happens and the form
values are preserved unchanged. -/
theorem c8_error_message_display :
    (∀ (v : FormValuesR) (resp : SubmitResponse) (m : String),
      resp.ok = false → resp.body = Except.ok (some m) → m ≠ "" →
      submitCycleR v resp = ({ toasts := [m], didReset := false }, v)) ∧
    (∀ (v : FormValuesP0) (resp : SubmitResponse) (m : String),
      resp.ok = false → resp.body = Except.ok (some m) → m ≠ "" →
      submitCycleP0 v resp = ({ toasts := [m], didReset := false }, v)) ∧
    (∀ (v : FormValuesP1) (resp : SubmitResponse) (m : String),
      resp.ok = false → resp.body = Except.ok (some m) → m ≠ "" →
      submitCycleP1 v resp = ({ toasts := [m], didReset := false }, v)) ∧
    (∀ (v : FormValuesR) (resp : SubmitResponse),
      resp.ok = false → resp.body = Except.ok none →
      submitCycleR v resp = ({ toasts := [failSubmitMsg], didReset := false }, v)) ∧
    (∀ (v : FormValuesR) (resp : SubmitResponse),
      resp.ok = false → resp.body = Except.ok (some "") →
      submitCycleR v resp = ({ toasts := [failSubmitMsg], didReset := false }, v)) ∧
    (∀ (v : FormValuesR) (resp : SubmitResponse),
      resp.ok = false → resp.body = Except.error () →
      submitCycleR v resp = ({ toasts := [caughtSubmitMsg], didReset := false }, v)) := by
  refine ⟨?_, ?_, ?_, ?_, ?_, ?_⟩
  · rintro v ⟨ok, body⟩ m hok hbody hm
    subst hok; subst hbody
    simp [submitCycleR, handleSubmitResponse, jsOrElse, hm]
  · rintro v ⟨ok, body⟩ m hok hbody hm
    subst hok; subst hbody
    simp [submitCycleP0, handleSubmitResponse, jsOrElse, hm]
  · rintro v ⟨ok, body⟩ m hok hbody hm
    subst hok; subst hbody
    simp [submitCycleP1, handleSubmitResponse, jsOrElse, hm]
  · rintro v ⟨ok, body⟩ hok hbody
    subst hok; subst hbody
    rfl
  · rintro v ⟨ok, body⟩ hok hbody
    subst hok; subst hbody
    rfl
  · rintro v ⟨ok, body⟩ hok hbody
    subst hok; subst hbody
    rfl

/-- Witness for C8: a 400-style response with body message
"Email already registered" makes each variant show exactly that string and
keep the sample form values. -/
theorem c8_witness :
    submitCycleR sampleFormR
        { ok := false, body := Except.ok (some "Email already registered") }
      = ({ toasts := ["Email already registered"], didReset := false },
         sampleFormR) ∧
    submitCycleP0 sampleFormP0
        { ok := false, body := Except.ok (some "Email already registered") }
      = ({ toasts := ["Email already registered"], didReset := false },
         sampleFormP0) ∧
    submitCycleP1 sampleFormP1
        { ok := false, body := Except.ok (some "Email already registered") }
      = ({ toasts := ["Email already registered"], didReset := false },
         sampleFormP1) := by
  refine ⟨?_, ?_, ?_⟩
  · exact c8_error_message_display.1 sampleFormR _ "Email already registered"
      rfl rfl (by decide)
  · exact c8_error_message_display.2.1 sampleFormP0 _ "Email already registered"
      rfl rfl (by decide)
  · exact c8_error_message_display.2.2.1 sampleFormP1 _ "Email already registered"
      rfl rfl (by decide)

/-- C9: an ok submission response makes every variant raise its success
toast and reset the form values to the all-default state: empty strings
for the text and selection fields and "0" for each headcount field. -/
theorem c9_success_resets_to_defaults :
    ∀ resp : SubmitResponse, resp.ok = true →
      (∀ v : FormValuesR, submitCycleR v resp
        = ({ toasts := [successMsgR], didReset := true }, defaultValuesR)) ∧
      (∀ v : FormValuesP0, submitCycleP0 v resp
        = ({ toasts := [successMsgP0], didReset := true }, defaultValuesP0)) ∧
      (∀ v : FormValuesP1, submitCycleP1 v resp
        = ({ toasts := [successMsgP1], didReset := true }, defaultValuesP1)) ∧
      defaultValuesR = { full_name := "", country := "", role := "",
                         email := "", phone_number := "",
                         students_coming := "0" } ∧
      defaultValuesP0 = { full_name := "", country := "", role := "",
                          email := "", whatsapp_number := "",
                          number_of_students := "0" } ∧
      defaultValuesP1 = { full_name := "", country := "", role := "",
                          subject := "", email := "", whatsapp_numer := "",
                          maths_students := "0", informatics_students := "0",
                          maths_team_leaders := "0",
                          informatics_team_leaders := "0" } := by
  rintro ⟨ok, body⟩ hok
  subst hok
  exact ⟨fun v => rfl, fun v => rfl, fun v => rfl, rfl, rfl, rfl⟩

/-- Witness for C9: a 201-style ok response applied to the sample forms. -/
theorem c9_witness :
    submitCycleR sampleFormR { ok := true, body := Except.ok none }
      = ({ toasts := [successMsgR], didReset := true }, defaultValuesR) ∧
    submitCycleP1 sampleFormP1 { ok := true, body := Except.ok none }
      = ({ toasts := [successMsgP1], didReset := true }, defaultValuesP1) := by
  exact ⟨(c9_success_resets_to_defaults { ok := true, body := Except.ok none }
            rfl).1 sampleFormR,
         (c9_success_resets_to_defaults { ok := true, body := Except.ok none }
            rfl).2.2.1 sampleFormP1⟩

/-- A register.tsx form input whose country is the non-numeric string
"abc", accepted by the schema since the country rule only demands a
non-empty string. -/
def nanFormR : FormValuesR :=
  { full_name := "John Doe", country := "abc", role := "Team Leader",
    email := "john.doe@example.com", phone_number := "934798949",
    students_coming := "2" }

/-- A part_000 form input with non-numeric country and role id strings,
accepted by its schema. -/
def nanFormP0 : FormValuesP0 :=
  { full_name := "John Doe", country := "abc", role := "xyz",
    email := "john.doe@example.com", whatsapp_number := "+1234567890",
    number_of_students := "2" }

/-- C10: the flat-variant schemas require only non-empty country (and, in
part_000, role) strings, so the form with country "abc" passes the full
schema, `parseInt` of "abc" is NaN, and the submitted payload carries no
valid integer in those fields while the POST is still issued. -/
theorem c10_non_numeric_id_reaches_payload :
    formSchemaR nanFormR = true ∧
    jsParseInt "abc" = none ∧
    (buildPayloadR nanFormR).country = none ∧
    submitAttemptR nanFormR =
      some { url := baseUrl ++ "api/participation-requests/",
             payload := buildPayloadR nanFormR } ∧
    formSchemaP0 nanFormP0 = true ∧
    (buildPayloadP0 nanFormP0).country = none ∧
    (buildPayloadP0 nanFormP0).role = none ∧
    submitAttemptP0 nanFormP0 =
      some { url := baseUrl ++ "api/participation-requests/",
             payload := buildPayloadP0 nanFormP0 } := by
  refine ⟨by decide, by decide, by decide, ?_, by decide, by decide, by decide, ?_⟩
  · simp [submitAttemptR, show formSchemaR nanFormR = true by decide]
  · simp [submitAttemptP0, show formSchemaP0 nanFormP0 = true by decide]
